import Mathlib

/-!
# Task-traker (`src/app.py`): shallow embedding and verification

The repository is a Flask + SQLite CRUD task manager.  This file embeds the
single-table data model (`tasks`), the per-request connection/commit semantics
of `sqlite3` (uncommitted changes are rolled back when a connection closes),
and the five route handlers of `src/app.py`: `index`, `add_task`,
`delete_task`, `edit_task` (POST phase), `complete_task`.

Modelling choices, all taken from the source:
* `werkzeug.utils.escape` (markupsafe) is embedded as a per-character HTML
  escape of `&`, `<`, `>`, `"` and the single quote.
* Python `str.strip()` is embedded as trimming the ASCII whitespace
  characters from both ends.
* `CURRENT_TIMESTAMP` is embedded as a logical clock `now` that strictly
  increases at each insert, so later rows carry strictly larger timestamps.
* `ORDER BY created_at DESC` is embedded as `List.insertionSort` with the
  relation "has the later or equal timestamp".
* A storage failure (`sqlite3.Error` / any `Exception` inside the `try`
  blocks) is injected through an `err : Option String` parameter carrying the
  error detail; `none` means the datastore call succeeds.
* The source of `delete_task` contains a mis-indented
  `flash(TASK_NOT_FOUND_MSG, 'error')` before the `rowcount` conditional
  (line 189, an `IndentationError` in Python); the embedding keeps that stray
  flash at the indentation level at which the line parses, i.e. it runs
  unconditionally.  `delete_task` also never calls `conn.commit()`, so its
  `DELETE` is rolled back when the connection closes; the embedding keeps
  that faithfully through the `Conn` structure.
-/

namespace TaskTracker

/-! ## Python string primitives used by the handlers -/

/-- The whitespace characters stripped by Python `str.strip()` (ASCII range):
space, tab, newline, carriage return, vertical tab, form feed. -/
def isPySpace (c : Char) : Bool :=
  c = ' ' || c = '\t' || c = '\n' || c = '\r' || c = Char.ofNat 11 || c = Char.ofNat 12

/-- Trim `isPySpace` characters from both ends of a character list. -/
def pyStripList (l : List Char) : List Char :=
  ((l.dropWhile isPySpace).reverse.dropWhile isPySpace).reverse

/-- Python `str.strip()` with no argument. -/
def pyStrip (s : String) : String :=
  ⟨pyStripList s.data⟩

/-- Per-character HTML escaping of `markupsafe.escape`
(`werkzeug.utils.escape` in `src/app.py` line 8). -/
def escapeChar (c : Char) : List Char :=
  if c = '&' then "&amp;".data
  else if c = '<' then "&lt;".data
  else if c = '>' then "&gt;".data
  else if c = Char.ofNat 34 then "&#34;".data
  else if c = Char.ofNat 39 then "&#39;".data
  else [c]

/-- `markupsafe.escape` on a whole string. -/
def escapeHtml (s : String) : String :=
  ⟨s.data.flatMap escapeChar⟩

/-! ## Data model: the `tasks` table (`init_db`, lines 103-110) -/

/-- One row of the `tasks` table: `id INTEGER PRIMARY KEY AUTOINCREMENT`,
`description TEXT NOT NULL`, `created_at TIMESTAMP DEFAULT CURRENT_TIMESTAMP`,
`is_completed BOOLEAN DEFAULT FALSE`. -/
structure Task where
  id : Nat
  description : String
  created_at : Nat
  is_completed : Bool
deriving DecidableEq

/-- The datastore: the rows of `tasks` in insertion order, the next
`AUTOINCREMENT` id, and the logical clock giving `CURRENT_TIMESTAMP`. -/
structure DB where
  tasks : List Task
  nextId : Nat
  now : Nat
deriving DecidableEq

/-- The state right after `init_db` created the empty `tasks` table. -/
def initDb : DB :=
  { tasks := [], nextId := 1, now := 1 }

/-! ## SQL statements executed by the handlers -/

/-- `INSERT INTO tasks (description) VALUES (?)`: a fresh `AUTOINCREMENT` id
and the current timestamp; the clock then advances. -/
def sqlInsert (db : DB) (desc : String) : DB :=
  { tasks := db.tasks ++ [{ id := db.nextId, description := desc,
                            created_at := db.now, is_completed := false }]
    nextId := db.nextId + 1
    now := db.now + 1 }

/-- `DELETE FROM tasks WHERE id = ?`; also returns `cursor.rowcount`. -/
def sqlDelete (db : DB) (i : Nat) : DB × Nat :=
  ({ db with tasks := db.tasks.filter (fun t => t.id != i) },
   (db.tasks.filter (fun t => t.id == i)).length)

/-- `UPDATE tasks SET description = ? WHERE id = ?`; also returns
`cursor.rowcount`. -/
def sqlUpdateDesc (db : DB) (i : Nat) (d : String) : DB × Nat :=
  ({ db with tasks := (db.tasks.map
      (fun t => if t.id = i then { t with description := d } else t)) },
   (db.tasks.filter (fun t => t.id == i)).length)

/-- `UPDATE tasks SET is_completed = TRUE WHERE id = ?`; also returns
`cursor.rowcount`. -/
def sqlComplete (db : DB) (i : Nat) : DB × Nat :=
  ({ db with tasks := (db.tasks.map
      (fun t => if t.id = i then { t with is_completed := true } else t)) },
   (db.tasks.filter (fun t => t.id == i)).length)

/-! ## `sqlite3` connection semantics (`get_db_connection`, `closing`)

A Python `sqlite3` connection implicitly opens a transaction at the first
data-modifying statement; `conn.commit()` persists the pending changes and
`conn.close()` without a commit rolls them back.  -/

/-- A per-request connection: the last committed datastore state and the
pending (uncommitted) state seen through this connection. -/
structure Conn where
  committed : DB
  pending : DB

/-- `get_db_connection(app)`: open a connection on the current state. -/
def connOpen (db : DB) : Conn :=
  { committed := db, pending := db }

/-- `conn.commit()`. -/
def Conn.commit (c : Conn) : Conn :=
  { committed := c.pending, pending := c.pending }

/-- `conn.close()` (via `closing(...)`): uncommitted changes are rolled
back; the resulting persistent state is the committed one. -/
def Conn.close (c : Conn) : DB :=
  c.committed

/-! ## Flash messages and responses -/

/-- A flash message: text and category, as in `flash(msg, category)`. -/
abbrev Flash := String × String

/-- What a handler sends back: a redirect (`redirect(url_for('index'))`) or a
rendered template with the task rows passed to it. -/
inductive Response where
  | redirect (target : String)
  | render (template : String) (tasks : List Task)
deriving DecidableEq

/-- `TASK_NOT_FOUND_MSG` (line 29 of the source). -/
def TASK_NOT_FOUND_MSG : String := "Task not found!"

def msgEmpty : String := "Task cannot be empty!"
def msgAdded : String := "Task added successfully!"
def msgAddFail : String := "Failed to add task. Please try again."
def msgDeleted : String := "Task deleted successfully!"
def msgDeleteFail : String := "Failed to delete task. Please try again."
def msgUpdated : String := "Task updated successfully!"
def msgEditFail : String := "Failed to edit task. Please try again."
def msgCompleted : String := "Task marked as completed!"
def msgCompleteFail : String := "Failed to complete task. Please try again."
def msgLoadFail : String := "Failed to load tasks. Please try again."

/-! ## Sorting: `SELECT * FROM tasks ORDER BY created_at DESC` -/

/-- The order of `ORDER BY created_at DESC`: `a` comes no later than `b`
when `a`'s timestamp is at least `b`'s. -/
def taskBefore (a b : Task) : Prop :=
  b.created_at ≤ a.created_at

instance : DecidableRel taskBefore :=
  fun a b => Nat.decLe b.created_at a.created_at

instance : IsTotal Task taskBefore :=
  ⟨fun a b => Nat.le_total b.created_at a.created_at⟩

instance : IsTrans Task taskBefore :=
  ⟨fun _ _ _ h1 h2 => Nat.le_trans h2 h1⟩

/-- The row list produced by `SELECT * FROM tasks ORDER BY created_at DESC`. -/
def listTasks (db : DB) : List Task :=
  List.insertionSort taskBefore db.tasks

/-! ## Route handlers

Each handler maps (persistent state, request data, failure oracle) to
(new persistent state, flashed messages, response).  `err = some detail`
means the datastore raises an exception carrying `detail` inside the
handler's `try` block (caught by its `except`). -/

/-- `index` (lines 142-155): `GET /`. -/
def index (db : DB) (err : Option String) : DB × List Flash × Response :=
  match err with
  | some _ => (db, [(msgLoadFail, "error")], .render "index.html" [])
  | none => (db, [], .render "index.html" (listTasks db))

/-- `add_task` (lines 157-178): `POST /add` with form field `task`. -/
def add_task (db : DB) (raw : String) (err : Option String) :
    DB × List Flash × Response :=
  let task := escapeHtml (pyStrip raw)
  if task = "" then
    (db, [(msgEmpty, "error")], .redirect "index")
  else
    match err with
    | some _ => (db, [(msgAddFail, "error")], .redirect "index")
    | none =>
      let conn := connOpen db
      let conn := { conn with pending := sqlInsert conn.pending task }
      let conn := conn.commit
      (conn.close, [(msgAdded, "success")], .redirect "index")

/-- `delete_task` (lines 180-199): `GET /delete/<id>`.  Embedded faithfully
to the source: the stray mis-indented `flash(TASK_NOT_FOUND_MSG, 'error')`
of line 189 runs unconditionally before the `rowcount` check, and no
`conn.commit()` is ever issued, so closing the connection rolls the
`DELETE` back. -/
def delete_task (db : DB) (task_id : Nat) (err : Option String) :
    DB × List Flash × Response :=
  match err with
  | some _ => (db, [(msgDeleteFail, "error")], .redirect "index")
  | none =>
    let conn := connOpen db
    let res := sqlDelete conn.pending task_id
    let conn := { conn with pending := res.1 }
    let stray : List Flash := [(TASK_NOT_FOUND_MSG, "error")]
    let flashes :=
      if res.2 = 0 then stray ++ [("Task not found!", "error")]
      else stray ++ [(msgDeleted, "success")]
    (conn.close, flashes, .redirect "index")

/-- `edit_task`, POST phase (lines 201-235): `POST /edit/<id>` with form
field `task`.  On validation failure or a vanished row the source falls
through to the (structurally broken) SELECT-and-render part; the embedding
renders the edit view there.  The `UPDATE` is committed (line 215). -/
def edit_task_post (db : DB) (task_id : Nat) (raw : String)
    (err : Option String) : DB × List Flash × Response :=
  match err with
  | some _ => (db, [(msgEditFail, "error")], .redirect "index")
  | none =>
    let conn := connOpen db
    let new_task := escapeHtml (pyStrip raw)
    if new_task = "" then
      (conn.close, [(msgEmpty, "error")],
       .render "edit.html" (conn.pending.tasks.filter (fun t => t.id == task_id)))
    else
      let res := sqlUpdateDesc conn.pending task_id new_task
      let conn := Conn.commit { conn with pending := res.1 }
      if res.2 = 0 then
        (conn.close, [("Task not found!", "error")],
         .render "edit.html" (conn.pending.tasks.filter (fun t => t.id == task_id)))
      else
        (conn.close, [(msgUpdated, "success")], .redirect "index")

/-- `complete_task` (lines 237-255): `GET /complete/<id>`. -/
def complete_task (db : DB) (task_id : Nat) (err : Option String) :
    DB × List Flash × Response :=
  match err with
  | some _ => (db, [(msgCompleteFail, "error")], .redirect "index")
  | none =>
    let conn := connOpen db
    let res := sqlComplete conn.pending task_id
    let conn := Conn.commit { conn with pending := res.1 }
    let flashes :=
      if res.2 = 0 then [("Task not found!", "error")]
      else [(msgCompleted, "success")]
    (conn.close, flashes, .redirect "index")

/-! ## Reachable datastore states -/

/-- The datastore states reachable from a fresh `init_db` database through
the route handlers, under any request data and any failure oracle. -/
inductive Reachable : DB → Prop where
  | init : Reachable initDb
  | step_index {db : DB} (err : Option String) :
      Reachable db → Reachable (index db err).1
  | step_add {db : DB} (raw : String) (err : Option String) :
      Reachable db → Reachable (add_task db raw err).1
  | step_delete {db : DB} (task_id : Nat) (err : Option String) :
      Reachable db → Reachable (delete_task db task_id err).1
  | step_edit {db : DB} (task_id : Nat) (raw : String) (err : Option String) :
      Reachable db → Reachable (edit_task_post db task_id raw err).1
  | step_complete {db : DB} (task_id : Nat) (err : Option String) :
      Reachable db → Reachable (complete_task db task_id err).1

/-- The §3 invariant: every stored description is non-empty and not
whitespace-only after trimming, i.e. stripping it leaves a non-empty
string. -/
def ValidDescriptions (db : DB) : Prop :=
  ∀ t ∈ db.tasks, pyStrip t.description ≠ ""

/-- `Response.isRedirect`: whether a handler response is a redirect. -/
def Response.isRedirect : Response → Bool
  | .redirect _ => true
  | .render _ _ => false

/-- The row `add_task` inserts for form input `raw`: fresh id, the escaped
stripped description, the current timestamp, not completed. -/
def newTask (db : DB) (raw : String) : Task :=
  { id := db.nextId, description := escapeHtml (pyStrip raw),
    created_at := db.now, is_completed := false }

/-- A fresh database holding the single task "Buy milk". -/
def dbMilk : DB := (add_task initDb "Buy milk" none).1

/-- The row stored in `dbMilk`. -/
def taskMilk : Task :=
  { id := 1, description := "Buy milk", created_at := 1, is_completed := false }

/-- A fresh database after `POST /add` with form input `a&b`; the stored
description is the escaped form `a&amp;b`. -/
def dbAmp : DB := (add_task initDb "a&b" none).1

/-! ## Helper lemmas on strings -/

theorem mk_eq_empty_iff (l : List Char) : (⟨l⟩ : String) = "" ↔ l = [] :=
  ⟨fun h => congrArg String.data h, fun h => by subst h; rfl⟩

theorem pyStripList_eq_nil_iff (l : List Char) :
    pyStripList l = [] ↔ ∀ c ∈ l, isPySpace c = true := by
  unfold pyStripList
  rw [List.reverse_eq_nil_iff, List.dropWhile_eq_nil_iff]
  constructor
  · intro h c hc
    rw [← List.takeWhile_append_dropWhile isPySpace l] at hc
    rcases List.mem_append.mp hc with h1 | h1
    · exact List.mem_takeWhile_imp h1
    · exact h c (List.mem_reverse.mpr h1)
  · intro h c hc
    refine h c ?_
    have h2 : c ∈ l.dropWhile isPySpace := List.mem_reverse.mp hc
    exact List.dropWhile_sublist isPySpace |>.mem h2

theorem pyStrip_eq_empty_iff (s : String) :
    pyStrip s = "" ↔ ∀ c ∈ s.data, isPySpace c = true := by
  rw [pyStrip, mk_eq_empty_iff, pyStripList_eq_nil_iff]

/-- A character kept by `dropWhile` when it is the last element and fails the
predicate. -/
theorem mem_dropWhile_concat (p : Char → Bool) (c : Char) (h : p c = false) :
    ∀ l : List Char, c ∈ List.dropWhile p (l ++ [c])
  | [] => by simp [List.dropWhile, h]
  | a :: l => by
    by_cases ha : p a
    · simpa [List.dropWhile, ha] using mem_dropWhile_concat p c h l
    · simp [List.dropWhile, ha]

/-- The head exposed by `dropWhile` fails the predicate. -/
theorem dropWhile_cons_head {p : Char → Bool} :
    ∀ {l : List Char} {c : Char} {t : List Char},
      List.dropWhile p l = c :: t → p c = false
  | [], c, t, h => by simp at h
  | a :: l, c, t, h => by
    by_cases ha : p a
    · exact dropWhile_cons_head (by simpa [List.dropWhile, ha] using h)
    · rw [List.dropWhile_cons_of_neg ha] at h
      cases h
      exact Bool.of_not_eq_true ha

/-- A stripped string that is non-empty still holds a non-whitespace
character. -/
theorem exists_nonspace_of_pyStrip_ne {s : String} (h : pyStrip s ≠ "") :
    ∃ c ∈ (pyStrip s).data, isPySpace c = false := by
  have hl : pyStripList s.data ≠ [] := fun he => h (by rw [pyStrip, mk_eq_empty_iff]; exact he)
  have hd1 : s.data.dropWhile isPySpace ≠ [] := by
    intro he
    exact hl (by unfold pyStripList; rw [he]; rfl)
  obtain ⟨c, t, hct⟩ := List.exists_cons_of_ne_nil hd1
  have hc : isPySpace c = false := dropWhile_cons_head hct
  refine ⟨c, ?_, hc⟩
  show c ∈ pyStripList s.data
  unfold pyStripList
  rw [hct, List.mem_reverse]
  have : (c :: t).reverse = t.reverse ++ [c] := by simp
  rw [this]
  exact mem_dropWhile_concat isPySpace c hc t.reverse

theorem pyStrip_ne_empty_of_exists {s : String}
    (h : ∃ c ∈ s.data, isPySpace c = false) : pyStrip s ≠ "" := by
  intro he
  obtain ⟨c, hc, hns⟩ := h
  have := (pyStrip_eq_empty_iff s).mp he c hc
  rw [this] at hns
  cases hns

/-- Each character escape contains a non-whitespace character whenever the
character itself is not whitespace. -/
theorem exists_nonspace_escapeChar (c : Char) (h : isPySpace c = false) :
    ∃ d ∈ escapeChar c, isPySpace d = false := by
  unfold escapeChar
  split_ifs with h1 h2 h3 h4 h5
  · exact ⟨'&', by decide, by decide⟩
  · exact ⟨'&', by decide, by decide⟩
  · exact ⟨'&', by decide, by decide⟩
  · exact ⟨'&', by decide, by decide⟩
  · exact ⟨'&', by decide, by decide⟩
  · exact ⟨c, List.mem_singleton.mpr rfl, h⟩

/-- The string actually stored by `add_task`/`edit_task` — the escape of the
stripped input — is never empty or whitespace-only after trimming, as long as
the handlers' own emptiness guard passed. -/
theorem stored_description_valid {raw : String}
    (h : escapeHtml (pyStrip raw) ≠ "") :
    pyStrip (escapeHtml (pyStrip raw)) ≠ "" := by
  have hs : pyStrip raw ≠ "" := by
    intro he
    rw [he] at h
    exact h rfl
  obtain ⟨c, hc, hns⟩ := exists_nonspace_of_pyStrip_ne hs
  obtain ⟨d, hd, hdns⟩ := exists_nonspace_escapeChar c hns
  refine pyStrip_ne_empty_of_exists ⟨d, ?_, hdns⟩
  show d ∈ (pyStrip raw).data.flatMap escapeChar
  exact List.mem_flatMap.mpr ⟨c, hc, hd⟩

/-! ## Helper lemmas on the handlers -/

/-- `index` never changes the datastore. -/
theorem index_fst (db : DB) (err : Option String) : (index db err).1 = db := by
  cases err <;> rfl

/-- `delete_task` never changes the persistent datastore: its `DELETE` is
rolled back because the handler never commits. -/
theorem delete_task_fst (db : DB) (i : Nat) (err : Option String) :
    (delete_task db i err).1 = db := by
  cases err <;> rfl

/-- `add_task` on a validly described task inserts the escaped, stripped
description. -/
theorem add_task_eq_of_valid (db : DB) (raw : String)
    (hv : escapeHtml (pyStrip raw) ≠ "") :
    add_task db raw none =
      (sqlInsert db (escapeHtml (pyStrip raw)),
       [(msgAdded, "success")], .redirect "index") := by
  simp only [add_task, if_neg hv]
  rfl

/-- The committed state of `edit_task` POST with a valid description is the
`UPDATE`'s result, whether or not a row matched. -/
theorem edit_task_post_fst_of_valid (db : DB) (i : Nat) (raw : String)
    (hv : escapeHtml (pyStrip raw) ≠ "") :
    (edit_task_post db i raw none).1 =
      (sqlUpdateDesc db i (escapeHtml (pyStrip raw))).1 := by
  simp only [edit_task_post, if_neg hv]
  split <;> rfl

/-- `edit_task` POST with an empty (stripped) description does not change
the datastore. -/
theorem edit_task_post_fst_of_invalid (db : DB) (i : Nat) (raw : String)
    (hv : escapeHtml (pyStrip raw) = "") :
    (edit_task_post db i raw none).1 = db := by
  simp only [edit_task_post, if_pos hv]
  rfl

/-- `complete_task` commits the `UPDATE` of the completion flag. -/
theorem complete_task_fst (db : DB) (i : Nat) :
    (complete_task db i none).1 = (sqlComplete db i).1 := by
  rfl

/-- A row with the requested id makes the `WHERE id = ?` row count
positive. -/
theorem filter_id_length_ne_zero {l : List Task} {t : Task} (ht : t ∈ l) :
    (l.filter (fun u => u.id == t.id)).length ≠ 0 := by
  intro h
  rw [List.length_eq_zero] at h
  have : t ∈ l.filter (fun u => u.id == t.id) :=
    List.mem_filter.mpr ⟨ht, by simp⟩
  rw [h] at this
  cases this

/-! ## Helper lemmas on `listTasks` -/

/-- `SELECT *` returns every stored row (as a permutation of the table). -/
theorem listTasks_perm (db : DB) : (listTasks db).Perm db.tasks :=
  List.perm_insertionSort taskBefore db.tasks

/-- The rows come back ordered by `created_at DESC`. -/
theorem listTasks_sorted (db : DB) : List.Sorted taskBefore (listTasks db) :=
  List.sorted_insertionSort taskBefore db.tasks

/-- In a list sorted by `created_at DESC`, a row whose timestamp strictly
dominates every other row's sits at the head. -/
theorem head_eq_of_latest {l m : List Task} (hp : l.Perm m)
    (hs : List.Sorted taskBefore l) {t : Task} (ht : t ∈ m)
    (hmax : ∀ u ∈ m, u ≠ t → u.created_at < t.created_at) :
    l.head? = some t := by
  cases l with
  | nil =>
    exact absurd (hp.mem_iff.mpr ht) (List.not_mem_nil t)
  | cons a rest =>
    have ha : a ∈ m := hp.mem_iff.mp (List.mem_cons_self a rest)
    by_cases hat : a = t
    · rw [hat]
      rfl
    · exfalso
      have h1 : a.created_at < t.created_at := hmax a ha hat
      have ht2 : t ∈ rest := by
        rcases List.mem_cons.mp (hp.mem_iff.mpr ht) with h | h
        · exact absurd h.symm hat
        · exact h
      have h2 : taskBefore a t := (List.sorted_cons.mp hs).1 t ht2
      exact Nat.lt_irrefl _ (Nat.lt_of_le_of_lt h2 h1)

/-- The `UPDATE ... WHERE id = ?` row count is unchanged by a prior
completion pass, which preserves ids. -/
theorem sqlComplete_rowcount_pres (l : List Task) (i : Nat) :
    ((l.map (fun t => if t.id = i then { t with is_completed := true } else t)).filter
        (fun u => u.id == i)).length =
      (l.filter (fun u => u.id == i)).length := by
  rw [List.filter_map, List.length_map]
  congr 1
  apply List.filter_congr
  intro a _
  by_cases h : a.id = i <;> simp [h]

/-! ## Claims -/

/-- C1: the spec says `delete` removes exactly the addressed row, commits
immediately and a later list no longer shows it.  The code disagrees:
`delete_task` never calls `conn.commit()` (and line 189 is a stray,
mis-indented not-found flash), so the `DELETE` is rolled back when the
connection closes.  Concretely: with one stored task of id 1, a delete of
id 1 leaves the datastore unchanged and the subsequent list still shows the
task; a delete of the absent id 999 also leaves it unchanged but flashes the
not-found message twice. -/
theorem C1_delete_not_persisted :
    dbMilk.tasks.map Task.id = [1] ∧
    (delete_task dbMilk 1 none).1 = dbMilk ∧
    (listTasks (delete_task dbMilk 1 none).1).map Task.id = [1] ∧
    (delete_task dbMilk 999 none).1 = dbMilk ∧
    (delete_task dbMilk 999 none).2.1 =
      [(TASK_NOT_FOUND_MSG, "error"), ("Task not found!", "error")] := by
  decide

/-- C2: creating a task with a non-empty description and then listing shows
the new row exactly once and at the head, and the list operation always
returns all stored rows ordered by creation time descending. -/
theorem C2_create_then_list (db : DB) (raw : String)
    (hfresh : ∀ t ∈ db.tasks, t.created_at < db.now)
    (hne : escapeHtml (pyStrip raw) ≠ "") :
    (listTasks (add_task db raw none).1).head? = some (newTask db raw) ∧
    (listTasks (add_task db raw none).1).count (newTask db raw) = 1 ∧
    (∀ d : DB, (listTasks d).Perm d.tasks ∧
      List.Sorted taskBefore (listTasks d)) := by
  have htasks : (add_task db raw none).1.tasks = db.tasks ++ [newTask db raw] := by
    rw [add_task_eq_of_valid db raw hne]
    rfl
  have hmem : newTask db raw ∈ (add_task db raw none).1.tasks := by
    rw [htasks]
    exact List.mem_append_right _ (List.mem_singleton.mpr rfl)
  have hnotmem : newTask db raw ∉ db.tasks := by
    intro hmem2
    exact Nat.lt_irrefl db.now (hfresh (newTask db raw) hmem2)
  have hmax : ∀ u ∈ (add_task db raw none).1.tasks, u ≠ newTask db raw →
      u.created_at < (newTask db raw).created_at := by
    intro u hu hne2
    rw [htasks] at hu
    rcases List.mem_append.mp hu with h | h
    · exact hfresh u h
    · exact absurd (List.mem_singleton.mp h) hne2
  refine ⟨?_, ?_, fun d => ⟨listTasks_perm d, listTasks_sorted d⟩⟩
  · exact head_eq_of_latest (listTasks_perm _) (listTasks_sorted _) hmem hmax
  · rw [(listTasks_perm _).count_eq, htasks, List.count_append,
      List.count_eq_zero.mpr hnotmem]
    simp

/-- Witness for C2 at the concrete input `initDb`, form field `Buy milk`. -/
theorem C2_witness :
    (∀ t ∈ initDb.tasks, t.created_at < initDb.now) ∧
    escapeHtml (pyStrip "Buy milk") ≠ "" ∧
    ((listTasks (add_task initDb "Buy milk" none).1).head? =
        some (newTask initDb "Buy milk") ∧
      (listTasks (add_task initDb "Buy milk" none).1).count
        (newTask initDb "Buy milk") = 1 ∧
      (∀ d : DB, (listTasks d).Perm d.tasks ∧
        List.Sorted taskBefore (listTasks d))) :=
  ⟨(by intro t ht; cases ht), (by decide),
   C2_create_then_list initDb "Buy milk" (by intro t ht; cases ht) (by decide)⟩

/-- C3: creating a task whose description is empty or whitespace-only is
rejected before any write (under every failure oracle, so before storage is
touched): the datastore and its row count are unchanged, the validation
message is flashed and the handler redirects to the list. -/
theorem C3_empty_create_rejected (db : DB) (raw : String) (err : Option String)
    (h : ∀ c ∈ raw.data, isPySpace c = true) :
    add_task db raw err = (db, [(msgEmpty, "error")], .redirect "index") ∧
    (add_task db raw err).1.tasks.length = db.tasks.length := by
  have h1 : pyStrip raw = "" := (pyStrip_eq_empty_iff raw).mpr h
  have h2 : escapeHtml (pyStrip raw) = "" := by rw [h1]; rfl
  have h3 : add_task db raw err = (db, [(msgEmpty, "error")], .redirect "index") := by
    simp only [add_task, if_pos h2]
  exact ⟨h3, by rw [h3]⟩

/-- Witness for C3 at the concrete whitespace-only input `"   "`. -/
theorem C3_witness :
    (∀ c ∈ ("   " : String).data, isPySpace c = true) ∧
    (add_task initDb "   " none =
      (initDb, [(msgEmpty, "error")], .redirect "index") ∧
     (add_task initDb "   " none).1.tasks.length = initDb.tasks.length) :=
  ⟨by decide, C3_empty_create_rejected initDb "   " none (by decide)⟩

/-- C4 counterexample: the claim fails as stated.  `edit_task` stores
`escape(strip(input))`, so resubmitting a stored description that contains
an escapable character re-escapes it: the task created from input `a&b` is
stored as `a&amp;b`, and editing it to its own current description `a&amp;b`
changes the stored description to `a&amp;amp;b`. -/
theorem C4_counterexample :
    dbAmp.tasks.map Task.description = ["a&amp;b"] ∧
    dbAmp.tasks.map Task.id = [1] ∧
    (edit_task_post dbAmp 1 "a&amp;b" none).1.tasks.map Task.description =
      ["a&amp;amp;b"] ∧
    (edit_task_post dbAmp 1 "a&amp;b" none).1 ≠ dbAmp := by
  decide

/-- C4 (amended): editing a stored task to its own current description
always leaves every row's `id` and `created_at` unchanged, and leaves the
whole datastore unchanged provided the stored description is a fixed point
of strip-then-escape (in particular whenever it contains none of the
characters `&`, `<`, `>` or quotes); otherwise the description is replaced
by its re-escaped form. -/
theorem C4_noop_edit (db : DB) (t : Task) (ht : t ∈ db.tasks)
    (huniq : ∀ u ∈ db.tasks, u.id = t.id → u = t) :
    ((edit_task_post db t.id t.description none).1.tasks.map Task.id =
      db.tasks.map Task.id) ∧
    ((edit_task_post db t.id t.description none).1.tasks.map Task.created_at =
      db.tasks.map Task.created_at) ∧
    (escapeHtml (pyStrip t.description) = t.description →
      (edit_task_post db t.id t.description none).1 = db) := by
  by_cases hv : escapeHtml (pyStrip t.description) = ""
  · rw [edit_task_post_fst_of_invalid db t.id t.description hv]
    exact ⟨rfl, rfl, fun _ => rfl⟩
  · rw [edit_task_post_fst_of_valid db t.id t.description hv]
    refine ⟨?_, ?_, ?_⟩
    · show (db.tasks.map _).map Task.id = db.tasks.map Task.id
      rw [List.map_map]
      refine List.map_congr_left ?_
      intro u _
      by_cases hid : u.id = t.id <;> simp [Function.comp, hid]
    · show (db.tasks.map _).map Task.created_at = db.tasks.map Task.created_at
      rw [List.map_map]
      refine List.map_congr_left ?_
      intro u _
      by_cases hid : u.id = t.id <;> simp [Function.comp, hid]
    · intro hfix
      have hpt : ∀ u ∈ db.tasks,
          (if u.id = t.id
            then { u with description := escapeHtml (pyStrip t.description) }
            else u) = u := by
        intro u hu
        by_cases hid : u.id = t.id
        · have hut : u = t := huniq u hu hid
          rw [hut, if_pos rfl, hfix]
        · exact if_neg hid
      show ({ db with tasks := db.tasks.map _ } : DB) = db
      rw [List.map_congr_left hpt, List.map_id']

/-- Witness for C4 (amended) at the concrete database `dbMilk` and its
stored row `taskMilk`, whose description has no escapable character. -/
theorem C4_witness :
    taskMilk ∈ dbMilk.tasks ∧
    (∀ u ∈ dbMilk.tasks, u.id = taskMilk.id → u = taskMilk) ∧
    (((edit_task_post dbMilk taskMilk.id taskMilk.description none).1.tasks.map
        Task.id = dbMilk.tasks.map Task.id) ∧
     ((edit_task_post dbMilk taskMilk.id taskMilk.description none).1.tasks.map
        Task.created_at = dbMilk.tasks.map Task.created_at) ∧
     (escapeHtml (pyStrip taskMilk.description) = taskMilk.description →
       (edit_task_post dbMilk taskMilk.id taskMilk.description none).1 = dbMilk)) :=
  ⟨by decide, by decide, C4_noop_edit dbMilk taskMilk (by decide) (by decide)⟩

/-- C5: marking a stored task completed twice is idempotent: both requests
flash the success message (never not-found), the flag is true after the
first request, and the second request leaves the datastore exactly as the
first left it. -/
theorem C5_complete_twice_idempotent (db : DB) (t : Task) (ht : t ∈ db.tasks) :
    ((complete_task db t.id none).2.1 = [(msgCompleted, "success")]) ∧
    ((complete_task (complete_task db t.id none).1 t.id none).2.1 =
      [(msgCompleted, "success")]) ∧
    ((complete_task (complete_task db t.id none).1 t.id none).1 =
      (complete_task db t.id none).1) ∧
    (∀ u ∈ (complete_task db t.id none).1.tasks, u.id = t.id →
      u.is_completed = true) := by
  have hrc1 : (sqlComplete db t.id).2 ≠ 0 := filter_id_length_ne_zero ht
  have hfl1 : (complete_task db t.id none).2.1 =
      if (sqlComplete db t.id).2 = 0 then [("Task not found!", "error")]
      else [(msgCompleted, "success")] := rfl
  have hrc2 : (sqlComplete (complete_task db t.id none).1 t.id).2 ≠ 0 := by
    have hred : (sqlComplete (complete_task db t.id none).1 t.id).2 =
        ((db.tasks.map (fun u => if u.id = t.id
            then { u with is_completed := true } else u)).filter
          (fun u => u.id == t.id)).length := rfl
    rw [hred, sqlComplete_rowcount_pres]
    exact hrc1
  have hfl2 : (complete_task (complete_task db t.id none).1 t.id none).2.1 =
      if (sqlComplete (complete_task db t.id none).1 t.id).2 = 0
      then [("Task not found!", "error")]
      else [(msgCompleted, "success")] := rfl
  refine ⟨by rw [hfl1, if_neg hrc1], by rw [hfl2, if_neg hrc2], ?_, ?_⟩
  · rw [complete_task_fst (complete_task db t.id none).1 t.id]
    have hmm : (sqlComplete (complete_task db t.id none).1 t.id).1.tasks =
        (db.tasks.map (fun u => if u.id = t.id
          then { u with is_completed := true } else u)).map
          (fun u => if u.id = t.id
            then { u with is_completed := true } else u) := rfl
    have hidem : (db.tasks.map (fun u => if u.id = t.id
          then { u with is_completed := true } else u)).map
          (fun u => if u.id = t.id
            then { u with is_completed := true } else u) =
        db.tasks.map (fun u => if u.id = t.id
          then { u with is_completed := true } else u) := by
      rw [List.map_map]
      refine List.map_congr_left ?_
      intro u _
      by_cases hid : u.id = t.id <;> simp [Function.comp, hid]
    show ({ (complete_task db t.id none).1 with
      tasks := (sqlComplete (complete_task db t.id none).1 t.id).1.tasks } : DB) =
        (complete_task db t.id none).1
    rw [hmm, hidem]
    rfl
  · rw [complete_task_fst db t.id]
    intro u hu hid
    obtain ⟨v, hv, hvu⟩ := List.mem_map.mp hu
    by_cases h : v.id = t.id
    · rw [← hvu, if_pos h]
    · rw [← hvu, if_neg h] at hid
      exact absurd hid h

/-- Witness for C5 at the concrete database `dbMilk` and row `taskMilk`. -/
theorem C5_witness :
    taskMilk ∈ dbMilk.tasks ∧
    (((complete_task dbMilk taskMilk.id none).2.1 =
        [(msgCompleted, "success")]) ∧
     ((complete_task (complete_task dbMilk taskMilk.id none).1 taskMilk.id
        none).2.1 = [(msgCompleted, "success")]) ∧
     ((complete_task (complete_task dbMilk taskMilk.id none).1 taskMilk.id
        none).1 = (complete_task dbMilk taskMilk.id none).1) ∧
     (∀ u ∈ (complete_task dbMilk taskMilk.id none).1.tasks,
        u.id = taskMilk.id → u.is_completed = true)) :=
  ⟨by decide, C5_complete_twice_idempotent dbMilk taskMilk (by decide)⟩

/-- C6: the claim says delete and complete flash exactly one status per
request — success when the row existed, not-found otherwise, never both.
`complete_task` does behave this way, but `delete_task` does not: its stray
mis-indented `flash(TASK_NOT_FOUND_MSG, 'error')` (source line 189) runs
before the `rowcount` conditional, so deleting the existing task of id 1
flashes both the not-found status and the success status on one request. -/
theorem C6_delete_two_statuses :
    dbMilk.tasks.map Task.id = [1] ∧
    (delete_task dbMilk 1 none).2.1 =
      [(TASK_NOT_FOUND_MSG, "error"), (msgDeleted, "success")] := by
  decide

/-- C7: in every reachable datastore state every stored description is
non-empty and not whitespace-only after trimming: stripping it leaves a
non-empty string.  Both `add_task` and `edit_task` guard on the escaped,
stripped input before writing, and no other operation writes a
description. -/
theorem C7_descriptions_valid (db : DB) (h : Reachable db) :
    ValidDescriptions db := by
  induction h with
  | init =>
    intro t ht
    cases ht
  | step_index err h ih =>
    rw [ValidDescriptions, index_fst]
    exact ih
  | step_add raw err h ih =>
    by_cases hv : escapeHtml (pyStrip raw) = ""
    · intro t ht
      simp only [add_task, if_pos hv] at ht
      exact ih t ht
    · cases err with
      | some d =>
        intro t ht
        simp only [add_task, if_neg hv] at ht
        exact ih t ht
      | none =>
        rw [ValidDescriptions, add_task_eq_of_valid _ raw hv]
        intro t ht
        rcases List.mem_append.mp ht with h1 | h1
        · exact ih t h1
        · rw [List.mem_singleton.mp h1]
          exact stored_description_valid hv
  | step_delete i err h ih =>
    rw [ValidDescriptions, delete_task_fst]
    exact ih
  | step_edit i raw err h ih =>
    cases err with
    | some d => exact ih
    | none =>
      by_cases hv : escapeHtml (pyStrip raw) = ""
      · rw [ValidDescriptions, edit_task_post_fst_of_invalid _ i raw hv]
        exact ih
      · rw [ValidDescriptions, edit_task_post_fst_of_valid _ i raw hv]
        intro t ht
        obtain ⟨u, hu, hut⟩ := List.mem_map.mp ht
        by_cases hid : u.id = i
        · rw [← hut, if_pos hid]
          exact stored_description_valid hv
        · rw [← hut, if_neg hid]
          exact ih u hu
  | step_complete i err h ih =>
    cases err with
    | some d => exact ih
    | none =>
      rw [ValidDescriptions, complete_task_fst]
      intro t ht
      obtain ⟨u, hu, hut⟩ := List.mem_map.mp ht
      by_cases hid : u.id = i
      · rw [← hut, if_pos hid]
        exact ih u hu
      · rw [← hut, if_neg hid]
        exact ih u hu

/-- Witness for C7 at the concrete reachable state obtained by one create. -/
theorem C7_witness : ValidDescriptions dbMilk :=
  C7_descriptions_valid dbMilk (Reachable.step_add "Buy milk" none Reachable.init)

/-- C8 counterexample: the claim asks every route to turn a storage error
into a generic status **plus a redirect to the list**.  The list route does
not redirect: on a storage error `index` renders the list template with an
empty task list (it flashes the generic message, but the response is a
render, not a redirect). -/
theorem C8_counterexample :
    (index initDb (some "boom")).2.2 = Response.render "index.html" [] ∧
    Response.isRedirect (index initDb (some "boom")).2.2 = false ∧
    (index initDb (some "boom")).2.1 = [(msgLoadFail, "error")] := by
  decide

/-- C8 (amended): every storage error raised during a request is caught at
the route boundary and turned into a fixed, categorical flash message that
does not depend on the error detail, so the detail never reaches the client
verbatim; the mutating routes (add, delete, edit, complete) then redirect to
the list, while the list route renders an empty list. -/
theorem C8_generic_error_handling (db : DB) (raw : String) (i : Nat)
    (detail : String) :
    (index db (some detail)).2 =
      ([(msgLoadFail, "error")], .render "index.html" []) ∧
    ((add_task db raw (some detail)).2 =
        ([(msgEmpty, "error")], .redirect "index") ∨
     (add_task db raw (some detail)).2 =
        ([(msgAddFail, "error")], .redirect "index")) ∧
    (delete_task db i (some detail)).2 =
      ([(msgDeleteFail, "error")], .redirect "index") ∧
    (edit_task_post db i raw (some detail)).2 =
      ([(msgEditFail, "error")], .redirect "index") ∧
    (complete_task db i (some detail)).2 =
      ([(msgCompleteFail, "error")], .redirect "index") := by
  refine ⟨rfl, ?_, rfl, rfl, rfl⟩
  by_cases hv : escapeHtml (pyStrip raw) = ""
  · exact Or.inl (by simp only [add_task, if_pos hv])
  · exact Or.inr (by simp only [add_task, if_neg hv])

/-- C9: a storage failure during the list request does not fail the
request: `index` leaves the datastore untouched, flashes the generic load
failure message and renders the list view with an empty task list. -/
theorem C9_list_failure_renders_empty (db : DB) (detail : String) :
    index db (some detail) =
      (db, [(msgLoadFail, "error")], .render "index.html" []) := rfl

/-- C10: what `add_task` stores — and what `edit_task` overwrites matching
rows with — is the HTML-escaped form of the whitespace-stripped input, not
the input verbatim; on input `a<b` the stored text is `a&lt;b`, which
differs from what the user typed. -/
theorem C10_stored_is_escaped (db : DB) (raw : String) (i : Nat)
    (hv : escapeHtml (pyStrip raw) ≠ "") :
    (newTask db raw).description = escapeHtml (pyStrip raw) ∧
    ((add_task db raw none).1.tasks = db.tasks ++ [newTask db raw]) ∧
    ((edit_task_post db i raw none).1.tasks =
      db.tasks.map (fun t => if t.id = i
        then { t with description := escapeHtml (pyStrip raw) } else t)) ∧
    escapeHtml (pyStrip "a<b") = "a&lt;b" ∧ "a&lt;b" ≠ "a<b" := by
  refine ⟨rfl, ?_, ?_, by decide, by decide⟩
  · rw [add_task_eq_of_valid db raw hv]
    rfl
  · rw [edit_task_post_fst_of_valid db i raw hv]
    rfl

/-- Witness for C10 at the concrete input `a<b`. -/
theorem C10_witness :
    escapeHtml (pyStrip "a<b") ≠ "" ∧
    ((newTask initDb "a<b").description = escapeHtml (pyStrip "a<b") ∧
     ((add_task initDb "a<b" none).1.tasks =
        initDb.tasks ++ [newTask initDb "a<b"]) ∧
     ((edit_task_post initDb 1 "a<b" none).1.tasks =
        initDb.tasks.map (fun t => if t.id = 1
          then { t with description := escapeHtml (pyStrip "a<b") } else t)) ∧
     escapeHtml (pyStrip "a<b") = "a&lt;b" ∧ "a&lt;b" ≠ "a<b") :=
  ⟨by decide, C10_stored_is_escaped initDb "a<b" 1 (by decide)⟩

end TaskTracker
